import Mathlib

/-!
Verification development for the AliceVision cascade-hashing matcher
(`src/aliceVision/matching/ArrayMatcher_cascadeHashing.hpp`).

Scalars (`Scalar = float` in the template) are modelled as `ℚ`.  The wrapper
class `ArrayMatcher_cascadeHashing` is embedded faithfully: its state
(`memMapping`, `cascade_hasher_`, `hashed_base_`, `zero_mean_descriptor_`)
becomes an explicit `MatcherState`, its member functions `Build`,
`SearchNeighbour` and `SearchNeighbours` become pure functions on that state.
The `CascadeHasher` internals (`Init`, `GetZeroMeanDescriptor`,
`CreateHashedDescriptions`, `Match_HashedDescriptions`) are not part of the
given sources; they are modelled from the specification (sections 4.1-4.3).
-/

/-- Configuration surface of the engine (spec section 6): primary code
bit-width, secondary code bit-width, minimum-candidate threshold multiplier
and shortlist size multiplier.  All are speed/accuracy tunables. -/
structure Config where
  primaryBits : ℕ
  secondaryBits : ℕ
  minCandidatesMult : ℕ
  shortlistMult : ℕ
deriving Repr, DecidableEq

/-- Default configuration (spec: "All have defaults"). -/
def defaultConfig : Config :=
  { primaryBits := 8, secondaryBits := 128, minCandidatesMult := 2, shortlistMult := 2 }

/-- Modelled from the spec: the caller-supplied seeded random source
(`std::mt19937 & gen` in the wrapper).  A deterministic pseudo-random stream
given by iterating a linear congruential step from the seed. -/
def lcgStep (n : ℕ) : ℕ := (6364136223846793005 * n + 1442695040888963407) % 2 ^ 64

/-- Modelled from the spec: the k-th pseudo-random rational drawn from the
seeded source, used as an entry of a random projection matrix. -/
def randQ (seed k : ℕ) : ℚ := ((lcgStep^[k + 1] seed) % 2001 : ℕ) - 1000

/-- Modelled from the spec: a `rows × cols` random projection matrix whose
entries are drawn in sequence from the seeded source starting at `offset`. -/
def mkProj (seed rows cols offset : ℕ) : List (List ℚ) :=
  (List.range rows).map fun r => (List.range cols).map fun c => randQ seed (offset + r * cols + c)

/-- Modelled from the spec: the Hashing Model of `CascadeHasher` — one primary
random projection (bucket code) and one secondary random projection (ranking
code), both derived once from the seeded source and the dimension. -/
structure CascadeHasher where
  primaryProj : List (List ℚ)
  secondaryProj : List (List ℚ)
deriving Repr, DecidableEq

instance : Inhabited CascadeHasher := ⟨⟨[], []⟩⟩

/-- Modelled from the spec: `CascadeHasher::Init(gen, dimension)` — draws the
primary and secondary projection matrices from the seeded random source.
(The wrapper's `Build` discards any failure signal of `Init`, so the model
returns the hasher unconditionally.) -/
def CascadeHasher.init (cfg : Config) (gen dimension : ℕ) : CascadeHasher :=
  { primaryProj := mkProj gen cfg.primaryBits dimension 0
    secondaryProj := mkProj gen cfg.secondaryBits dimension (cfg.primaryBits * dimension) }

/-- Dot product of two descriptor rows. -/
def dotQ (a b : List ℚ) : ℚ := (List.zipWith (· * ·) a b).sum

/-- Element-wise difference of two descriptor rows. -/
def subQ (a b : List ℚ) : List ℚ := List.zipWith (· - ·) a b

/-- True squared Euclidean distance between two descriptor rows
(the `L2` metric squared, the default `Metric` of the wrapper). -/
def sqEuclid (a b : List ℚ) : ℚ := ((List.zipWith (· - ·) a b).map fun x => x * x).sum

/-- Row-major matrix view of a flat buffer: `Eigen::Map<BaseMat>(data, rows, cols)`
in the wrapper.  Row `i` is `data[i*cols .. i*cols+cols)`. -/
def toMat (data : List ℚ) (rows cols : ℕ) : List (List ℚ) :=
  (List.range rows).map fun i => (data.drop (i * cols)).take cols

/-- Modelled from the spec: a Hashed Descriptor — the primary (bucket) code and
the secondary (ranking) code of one descriptor. -/
structure HashedDescription where
  primary_code : List Bool
  secondary_code : List Bool
deriving Repr, DecidableEq

instance : Inhabited HashedDescription := ⟨⟨[], []⟩⟩

/-- Modelled from the spec: binarization of a projected vector — one bit per
projection row, the sign of the dot product. -/
def hashCodes (proj : List (List ℚ)) (v : List ℚ) : List Bool :=
  proj.map fun row => decide (0 ≤ dotQ row v)

/-- Modelled from the spec: hash one descriptor — subtract the zero-mean
vector, then binarize the primary and secondary projections. -/
def hashOne (h : CascadeHasher) (zeroMean v : List ℚ) : HashedDescription :=
  { primary_code := hashCodes h.primaryProj (subQ v zeroMean)
    secondary_code := hashCodes h.secondaryProj (subQ v zeroMean) }

/-- Modelled from the spec: `CascadeHasher::GetZeroMeanDescriptor` — the
element-wise mean of the rows of a descriptor matrix. -/
def GetZeroMeanDescriptor (mat : List (List ℚ)) : List ℚ :=
  match mat with
  | [] => []
  | r0 :: _ => (List.range r0.length).map fun j => (mat.map fun row => row.getD j 0).sum / mat.length

/-- Modelled from the spec: `CascadeHasher::CreateHashedDescriptions` — hash
every row of a matrix with the same zero-mean vector. -/
def CreateHashedDescriptions (h : CascadeHasher) (mat : List (List ℚ)) (zeroMean : List ℚ) :
    List HashedDescription :=
  mat.map (hashOne h zeroMean)

/-- Hamming distance between two hash codes. -/
def hammingD (a b : List Bool) : ℕ := (List.zipWith (fun x y => x != y) a b).count true

/-- Ordering used for the two hash-ranking stages: ascending key, ties broken
by ascending dataset row index (deterministic, spec section 4.3 step 5). -/
def keyLe (key : ℕ → ℕ) (i j : ℕ) : Prop := key i < key j ∨ (key i = key j ∧ i ≤ j)

instance (key : ℕ → ℕ) : DecidableRel (keyLe key) := fun i j => by
  unfold keyLe; exact inferInstance

instance (key : ℕ → ℕ) : IsTotal ℕ (keyLe key) := by
  constructor; intro a b; unfold keyLe; omega

instance (key : ℕ → ℕ) : IsTrans ℕ (keyLe key) := by
  constructor; intro a b c; unfold keyLe; omega

/-- Ordering of scored candidates: ascending true distance, ties broken by the
smaller dataset row index. -/
def distLe (p q : ℕ × ℚ) : Prop := p.2 < q.2 ∨ (p.2 = q.2 ∧ p.1 ≤ q.1)

instance : DecidableRel distLe := fun p q => by
  unfold distLe; exact inferInstance

instance : IsTotal (ℕ × ℚ) distLe := by
  constructor
  intro a b
  unfold distLe
  rcases lt_trichotomy a.2 b.2 with h | h | h
  · exact Or.inl (Or.inl h)
  · rcases Nat.le_total a.1 b.1 with h' | h'
    · exact Or.inl (Or.inr ⟨h, h'⟩)
    · exact Or.inr (Or.inr ⟨h.symm, h'⟩)
  · exact Or.inr (Or.inl h)

instance : IsTrans (ℕ × ℚ) distLe := by
  constructor
  intro a b c hab hbc
  unfold distLe at *
  rcases hab with h1 | ⟨h1, h1'⟩ <;> rcases hbc with h2 | ⟨h2, h2'⟩
  · exact Or.inl (h1.trans h2)
  · exact Or.inl (h2 ▸ h1)
  · exact Or.inl (h1 ▸ h2)
  · exact Or.inr ⟨h1.trans h2, h1'.trans h2'⟩

/-- Strict ordering of emitted results: strictly ascending true distance, ties
broken by the strictly smaller dataset row index. -/
def distLt (p q : ℕ × ℚ) : Prop := p.2 < q.2 ∨ (p.2 = q.2 ∧ p.1 < q.1)

/-- Modelled from the spec (section 4.3 step 2): candidate generation for one
query — dataset rows ordered by increasing Hamming distance of their primary
code from the query's primary code, probed until the minimum-candidate
threshold (at least `max NN (minCandidatesMult * NN)` rows) is met or all rows
are exhausted. -/
def candidatesOf (cfg : Config) (hashed_base : List HashedDescription)
    (hq : HashedDescription) (NN : ℕ) : List ℕ :=
  (List.insertionSort
    (keyLe fun i => hammingD (hashed_base.getD i default).primary_code hq.primary_code)
    (List.range hashed_base.length)).take (max NN (cfg.minCandidatesMult * NN))

/-- Modelled from the spec (section 4.3 step 3): rank the candidates by Hamming
distance on the secondary code and keep a bounded shortlist of size at least
`NN` (`max NN (shortlistMult * NN)`). -/
def shortlistOf (cfg : Config) (hashed_base : List HashedDescription)
    (hq : HashedDescription) (NN : ℕ) : List ℕ :=
  (List.insertionSort
    (keyLe fun i => hammingD (hashed_base.getD i default).secondary_code hq.secondary_code)
    (candidatesOf cfg hashed_base hq NN)).take (max NN (cfg.shortlistMult * NN))

/-- Modelled from the spec (section 4.3 step 4): exact re-scoring — true
squared Euclidean distance between the query row and each shortlisted dataset
row. -/
def scoredOf (cfg : Config) (hashed_base : List HashedDescription)
    (baseMat : List (List ℚ)) (hq : HashedDescription) (qRow : List ℚ) (NN : ℕ) :
    List (ℕ × ℚ) :=
  (shortlistOf cfg hashed_base hq NN).map fun i => (i, sqEuclid qRow (baseMat.getD i []))

/-- Modelled from the spec (section 4.3 step 5): one query's Match Result — the
`NN` smallest-distance shortlisted candidates in ascending distance order, ties
broken by the smaller dataset row index. -/
def matchOneQuery (cfg : Config) (hashed_base : List HashedDescription)
    (baseMat : List (List ℚ)) (hq : HashedDescription) (qRow : List ℚ) (NN : ℕ) :
    List (ℕ × ℚ) :=
  (List.insertionSort distLe (scoredOf cfg hashed_base baseMat hq qRow NN)).take NN

/-- Modelled from the spec: `CascadeHasher::Match_HashedDescriptions` — one
Match Result per query row, pairing each hashed query with its raw row. -/
def Match_HashedDescriptions (cfg : Config) (hashedQuery : List HashedDescription)
    (matQuery : List (List ℚ)) (hashed_base : List HashedDescription)
    (baseMat : List (List ℚ)) (NN : ℕ) : List (List (ℕ × ℚ)) :=
  List.zipWith (fun hq q => matchOneQuery cfg hashed_base baseMat hq q NN) hashedQuery matQuery

/-- The `Eigen::Map<BaseMat>` member `memMapping`: a borrowed row-major view of
the caller-owned flat dataset buffer together with its row and column counts. -/
structure MappedMat where
  data : List ℚ
  rows : ℕ
  cols : ℕ
deriving Repr, DecidableEq

/-- The state of an `ArrayMatcher_cascadeHashing` instance: `memMapping`,
`cascade_hasher_`, `hashed_base_` and `zero_mean_descriptor_`. -/
structure MatcherState where
  memMapping : Option MappedMat
  cascade_hasher : CascadeHasher
  hashed_base : List HashedDescription
  zero_mean_descriptor : List ℚ
deriving Repr, DecidableEq

/-- A freshly constructed matcher: no index built (`memMapping` is null). -/
def initialState : MatcherState :=
  { memMapping := none, cascade_hasher := default, hashed_base := [], zero_mean_descriptor := [] }

/-- `ArrayMatcher_cascadeHashing::Build(gen, dataset, nbRows, dimension)`:
if `nbRows < 1` reset `memMapping` to null and return `false`; otherwise map
the dataset, initialize the cascade hasher, compute the zero-mean descriptor
and the hashed dataset, and return `true`. -/
def Build (cfg : Config) (s : MatcherState) (gen : ℕ) (dataset : List ℚ)
    (nbRows dimension : ℕ) : Bool × MatcherState :=
  if nbRows < 1 then
    (false, { s with memMapping := none })
  else
    let mm : MappedMat := ⟨dataset, nbRows, dimension⟩
    let mat := toMat dataset nbRows dimension
    let ch := CascadeHasher.init cfg gen dimension
    let zm := GetZeroMeanDescriptor mat
    (true,
      { memMapping := some mm
        cascade_hasher := ch
        hashed_base := CreateHashedDescriptions ch mat zm
        zero_mean_descriptor := zm })

/-- `ArrayMatcher_cascadeHashing::SearchNeighbour`: logs a warning and returns
`false` unconditionally; the output parameters `indice` and `distance` are
never written (the returned triple carries them back unchanged). -/
def SearchNeighbour (s : MatcherState) (query : List ℚ) (indice : ℕ) (distance : ℚ) :
    Bool × ℕ × ℚ :=
  (false, indice, distance)

/-- `ArrayMatcher_cascadeHashing::SearchNeighbours(query, nbQuery, pvec_indices,
pvec_distances, NN)`: fail if `memMapping` is null; fail if `NN > rows` or
`nbQuery < 1`; otherwise map the query buffer at the index's column count,
hash it with the stored zero-mean descriptor, and match it against the hashed
dataset.  `none` models the `false` return (no results written). -/
def SearchNeighbours (cfg : Config) (s : MatcherState) (query : List ℚ)
    (nbQuery NN : ℕ) : Option (List (List (ℕ × ℚ))) :=
  match s.memMapping with
  | none => none
  | some mm =>
    if mm.rows < NN ∨ nbQuery < 1 then none
    else
      let matQuery := toMat query nbQuery mm.cols
      let hashedQuery := CreateHashedDescriptions s.cascade_hasher matQuery s.zero_mean_descriptor
      some (Match_HashedDescriptions cfg hashedQuery matQuery s.hashed_base
        (toMat mm.data mm.rows mm.cols) NN)

/-! ## Helper lemmas about the sort-and-take stages -/

theorem sortTake_length {α : Type} (r : α → α → Prop) [DecidableRel r] (l : List α) (m : ℕ) :
    ((List.insertionSort r l).take m).length = min m l.length := by
  simp [List.length_take, List.length_insertionSort]

theorem sortTake_nodup {α : Type} (r : α → α → Prop) [DecidableRel r] {l : List α} (m : ℕ)
    (h : l.Nodup) : ((List.insertionSort r l).take m).Nodup :=
  List.Nodup.sublist (List.take_sublist m _) (((List.perm_insertionSort r l).symm).nodup h)

theorem sortTake_subset {α : Type} (r : α → α → Prop) [DecidableRel r] (l : List α) (m : ℕ) :
    (List.insertionSort r l).take m ⊆ l := by
  intro x hx
  exact ((List.perm_insertionSort r l).mem_iff).1 ((List.take_sublist m _).subset hx)

theorem sortTake_sorted {α : Type} (r : α → α → Prop) [DecidableRel r] [IsTotal α r]
    [IsTrans α r] (l : List α) (m : ℕ) :
    List.Pairwise r ((List.insertionSort r l).take m) :=
  List.Pairwise.sublist (List.take_sublist m _) (List.sorted_insertionSort r l)

theorem sortTake_all {α : Type} (r : α → α → Prop) [DecidableRel r] (l : List α) (m : ℕ)
    (h : l.length ≤ m) : ((List.insertionSort r l).take m).Perm l := by
  rw [List.take_of_length_le (by rw [List.length_insertionSort]; exact h)]
  exact List.perm_insertionSort r l

/-! ## Lemmas about the modelled matching stages -/

theorem candidatesOf_length (cfg : Config) (hashed_base : List HashedDescription)
    (hq : HashedDescription) (NN : ℕ) :
    (candidatesOf cfg hashed_base hq NN).length
      = min (max NN (cfg.minCandidatesMult * NN)) hashed_base.length := by
  unfold candidatesOf
  rw [sortTake_length, List.length_range]

theorem candidatesOf_nodup (cfg : Config) (hashed_base : List HashedDescription)
    (hq : HashedDescription) (NN : ℕ) : (candidatesOf cfg hashed_base hq NN).Nodup :=
  sortTake_nodup _ _ (List.nodup_range _)

theorem candidatesOf_subset (cfg : Config) (hashed_base : List HashedDescription)
    (hq : HashedDescription) (NN : ℕ) :
    candidatesOf cfg hashed_base hq NN ⊆ List.range hashed_base.length :=
  sortTake_subset _ _ _

theorem candidatesOf_all (cfg : Config) (hashed_base : List HashedDescription)
    (hq : HashedDescription) (NN : ℕ) (h : hashed_base.length ≤ NN) :
    (candidatesOf cfg hashed_base hq NN).Perm (List.range hashed_base.length) :=
  sortTake_all _ _ _ (by rw [List.length_range]; omega)

theorem shortlistOf_length (cfg : Config) (hashed_base : List HashedDescription)
    (hq : HashedDescription) (NN : ℕ) :
    (shortlistOf cfg hashed_base hq NN).length
      = min (max NN (cfg.shortlistMult * NN))
          (min (max NN (cfg.minCandidatesMult * NN)) hashed_base.length) := by
  unfold shortlistOf
  rw [sortTake_length, candidatesOf_length]

theorem shortlistOf_nodup (cfg : Config) (hashed_base : List HashedDescription)
    (hq : HashedDescription) (NN : ℕ) : (shortlistOf cfg hashed_base hq NN).Nodup :=
  sortTake_nodup _ _ (candidatesOf_nodup cfg hashed_base hq NN)

theorem shortlistOf_subset (cfg : Config) (hashed_base : List HashedDescription)
    (hq : HashedDescription) (NN : ℕ) :
    shortlistOf cfg hashed_base hq NN ⊆ List.range hashed_base.length :=
  fun x hx => candidatesOf_subset cfg hashed_base hq NN (sortTake_subset _ _ _ hx)

theorem shortlistOf_all (cfg : Config) (hashed_base : List HashedDescription)
    (hq : HashedDescription) (NN : ℕ) (h : hashed_base.length ≤ NN) :
    (shortlistOf cfg hashed_base hq NN).Perm (List.range hashed_base.length) := by
  unfold shortlistOf
  exact (sortTake_all _ _ _ (by
    rw [(candidatesOf_all cfg hashed_base hq NN h).length_eq, List.length_range]
    omega)).trans (candidatesOf_all cfg hashed_base hq NN h)

theorem scoredOf_map_fst (cfg : Config) (hashed_base : List HashedDescription)
    (baseMat : List (List ℚ)) (hq : HashedDescription) (qRow : List ℚ) (NN : ℕ) :
    (scoredOf cfg hashed_base baseMat hq qRow NN).map Prod.fst
      = shortlistOf cfg hashed_base hq NN := by
  unfold scoredOf
  simp [List.map_map, Function.comp_def]

theorem matchOneQuery_length (cfg : Config) (hashed_base : List HashedDescription)
    (baseMat : List (List ℚ)) (hq : HashedDescription) (qRow : List ℚ) (NN : ℕ)
    (h : NN ≤ hashed_base.length) :
    (matchOneQuery cfg hashed_base baseMat hq qRow NN).length = NN := by
  unfold matchOneQuery
  rw [sortTake_length]
  unfold scoredOf
  rw [List.length_map, shortlistOf_length]
  omega

theorem matchOneQuery_map_fst_nodup (cfg : Config) (hashed_base : List HashedDescription)
    (baseMat : List (List ℚ)) (hq : HashedDescription) (qRow : List ℚ) (NN : ℕ) :
    ((matchOneQuery cfg hashed_base baseMat hq qRow NN).map Prod.fst).Nodup := by
  unfold matchOneQuery
  rw [List.map_take]
  apply List.Nodup.sublist (List.take_sublist NN _)
  apply (((List.perm_insertionSort distLe _).map Prod.fst).symm).nodup
  rw [scoredOf_map_fst]
  exact shortlistOf_nodup cfg hashed_base hq NN

theorem matchOneQuery_sorted (cfg : Config) (hashed_base : List HashedDescription)
    (baseMat : List (List ℚ)) (hq : HashedDescription) (qRow : List ℚ) (NN : ℕ) :
    List.Pairwise distLt (matchOneQuery cfg hashed_base baseMat hq qRow NN) := by
  have hle : List.Pairwise distLe (matchOneQuery cfg hashed_base baseMat hq qRow NN) :=
    sortTake_sorted distLe _ NN
  have hne : List.Pairwise (fun p q : ℕ × ℚ => p.1 ≠ q.1)
      (matchOneQuery cfg hashed_base baseMat hq qRow NN) :=
    List.pairwise_map.1 (matchOneQuery_map_fst_nodup cfg hashed_base baseMat hq qRow NN)
  refine (hle.and hne).imp ?_
  rintro p q ⟨hpq | ⟨heq, hle'⟩, hne'⟩
  · exact Or.inl hpq
  · exact Or.inr ⟨heq, lt_of_le_of_ne hle' hne'⟩

theorem matchOneQuery_mem (cfg : Config) (hashed_base : List HashedDescription)
    (baseMat : List (List ℚ)) (hq : HashedDescription) (qRow : List ℚ) (NN : ℕ)
    {p : ℕ × ℚ} (hp : p ∈ matchOneQuery cfg hashed_base baseMat hq qRow NN) :
    p.1 < hashed_base.length ∧ p.2 = sqEuclid qRow (baseMat.getD p.1 []) := by
  have hsc : p ∈ scoredOf cfg hashed_base baseMat hq qRow NN :=
    sortTake_subset distLe _ NN hp
  unfold scoredOf at hsc
  rcases List.mem_map.1 hsc with ⟨i, hi, rfl⟩
  exact ⟨List.mem_range.1 (shortlistOf_subset cfg hashed_base hq NN hi), rfl⟩

theorem matchOneQuery_all (cfg : Config) (hashed_base : List HashedDescription)
    (baseMat : List (List ℚ)) (hq : HashedDescription) (qRow : List ℚ) (NN : ℕ)
    (h : hashed_base.length ≤ NN) :
    ((matchOneQuery cfg hashed_base baseMat hq qRow NN).map Prod.fst).Perm
      (List.range hashed_base.length) := by
  have hlen : (scoredOf cfg hashed_base baseMat hq qRow NN).length ≤ NN := by
    unfold scoredOf
    rw [List.length_map, shortlistOf_length]
    omega
  have hperm := (sortTake_all distLe (scoredOf cfg hashed_base baseMat hq qRow NN) NN hlen).map
    Prod.fst
  unfold matchOneQuery
  refine hperm.trans ?_
  rw [scoredOf_map_fst]
  exact shortlistOf_all cfg hashed_base hq NN h

/-! ## Unfolding lemmas for the wrapper member functions -/

theorem Build_snd (cfg : Config) (s : MatcherState) (gen : ℕ) (dataset : List ℚ)
    (nbRows dim : ℕ) (h : 1 ≤ nbRows) :
    (Build cfg s gen dataset nbRows dim).2 =
      { memMapping := some ⟨dataset, nbRows, dim⟩
        cascade_hasher := CascadeHasher.init cfg gen dim
        hashed_base := CreateHashedDescriptions (CascadeHasher.init cfg gen dim)
          (toMat dataset nbRows dim) (GetZeroMeanDescriptor (toMat dataset nbRows dim))
        zero_mean_descriptor := GetZeroMeanDescriptor (toMat dataset nbRows dim) } := by
  unfold Build
  rw [if_neg (by omega)]

theorem Build_fst (cfg : Config) (s : MatcherState) (gen : ℕ) (dataset : List ℚ)
    (nbRows dim : ℕ) :
    (Build cfg s gen dataset nbRows dim).1 = !decide (nbRows < 1) := by
  unfold Build
  by_cases h : nbRows < 1
  · rw [if_pos h]; simp [h]
  · rw [if_neg h]; simp [h]

theorem SearchNeighbours_not_built (cfg : Config) (s : MatcherState) (query : List ℚ)
    (nbQuery NN : ℕ) (h : s.memMapping = none) :
    SearchNeighbours cfg s query nbQuery NN = none := by
  unfold SearchNeighbours
  rw [h]

theorem SearchNeighbours_built (cfg : Config) (s₀ : MatcherState) (gen : ℕ)
    (dataset : List ℚ) (nbRows dim : ℕ) (query : List ℚ) (nbQuery NN : ℕ)
    (h1 : 1 ≤ nbRows) (hNN : NN ≤ nbRows) (hq : 1 ≤ nbQuery) :
    SearchNeighbours cfg (Build cfg s₀ gen dataset nbRows dim).2 query nbQuery NN =
      some ((toMat query nbQuery dim).map fun q =>
        matchOneQuery cfg
          (CreateHashedDescriptions (CascadeHasher.init cfg gen dim)
            (toMat dataset nbRows dim) (GetZeroMeanDescriptor (toMat dataset nbRows dim)))
          (toMat dataset nbRows dim)
          (hashOne (CascadeHasher.init cfg gen dim)
            (GetZeroMeanDescriptor (toMat dataset nbRows dim)) q)
          q NN) := by
  rw [Build_snd cfg s₀ gen dataset nbRows dim h1]
  have hcond : ¬((⟨dataset, nbRows, dim⟩ : MappedMat).rows < NN ∨ nbQuery < 1) := by
    show ¬(nbRows < NN ∨ nbQuery < 1)
    omega
  simp only [SearchNeighbours, if_neg hcond, Match_HashedDescriptions,
    CreateHashedDescriptions, List.zipWith_map_left, List.zipWith_same]

theorem toMat_length (data : List ℚ) (rows cols : ℕ) : (toMat data rows cols).length = rows := by
  simp [toMat]

theorem CreateHashedDescriptions_length (h : CascadeHasher) (mat : List (List ℚ))
    (zeroMean : List ℚ) : (CreateHashedDescriptions h mat zeroMean).length = mat.length := by
  simp [CreateHashedDescriptions]

theorem getD_map_lt {α β : Type} (f : α → β) (l : List α) (i : ℕ) (d : α) (d' : β)
    (h : i < l.length) : (l.map f).getD i d' = f (l.getD i d) := by
  rw [List.getD_eq_getElem?_getD, List.getD_eq_getElem?_getD, List.getElem?_map,
    List.getElem?_eq_getElem h]
  rfl

theorem matchOneQuery_zero (cfg : Config) (hashed_base : List HashedDescription)
    (baseMat : List (List ℚ)) (hq : HashedDescription) (qRow : List ℚ) :
    matchOneQuery cfg hashed_base baseMat hq qRow 0 = [] := rfl

theorem Build_fail (cfg : Config) (s : MatcherState) (gen : ℕ) (dataset : List ℚ)
    (nbRows dim : ℕ) (h : nbRows < 1) :
    Build cfg s gen dataset nbRows dim = (false, { s with memMapping := none }) := by
  unfold Build
  rw [if_pos h]

theorem SearchNeighbours_some (cfg : Config) (mm : MappedMat) (ch : CascadeHasher)
    (hb : List HashedDescription) (zm : List ℚ) (query : List ℚ) (nbQuery NN : ℕ)
    (h : ¬(mm.rows < NN ∨ nbQuery < 1)) :
    SearchNeighbours cfg ⟨some mm, ch, hb, zm⟩ query nbQuery NN =
      some (Match_HashedDescriptions cfg
        (CreateHashedDescriptions ch (toMat query nbQuery mm.cols) zm)
        (toMat query nbQuery mm.cols) hb (toMat mm.data mm.rows mm.cols) NN) := by
  simp only [SearchNeighbours, if_neg h]

theorem SearchNeighbours_invalid (cfg : Config) (mm : MappedMat) (ch : CascadeHasher)
    (hb : List HashedDescription) (zm : List ℚ) (query : List ℚ) (nbQuery NN : ℕ)
    (h : mm.rows < NN ∨ nbQuery < 1) :
    SearchNeighbours cfg ⟨some mm, ch, hb, zm⟩ query nbQuery NN = none := by
  simp only [SearchNeighbours, if_pos h]

/-! ## The claims -/

/-- Claim C5: for every query vector and every matcher state (built or not),
the single-query search `SearchNeighbour` always fails (it returns `false`
unconditionally), never performs any matching and never returns a neighbor or
distance (the output parameters come back unchanged). -/
theorem C5_search_single_always_rejected (s : MatcherState) (query : List ℚ)
    (indice : ℕ) (distance : ℚ) :
    SearchNeighbour s query indice distance = (false, indice, distance) := rfl

/-- Claim C7 counterexample: the claim says `Build` fails when the dimension
is ≤ 0, but `Build` only checks `nbRows < 1`: with one dataset row and
dimension 0 (≤ 0) it returns `true`. -/
theorem C7_counterexample :
    (0 : ℕ) ≤ 0 ∧ (Build defaultConfig initialState 0 [1] 1 0).1 = true :=
  ⟨Nat.le_refl 0, rfl⟩

/-- Claim C7 (amended): `Build` fails (returns `false`) exactly when the
dataset has zero rows (`nbRows < 1`); the dimension is not validated, and
`Build` succeeds for any dimension whenever `nbRows ≥ 1`. -/
theorem C7_build_succeeds_iff_rows (cfg : Config) (s : MatcherState) (gen : ℕ)
    (dataset : List ℚ) (nbRows dim : ℕ) :
    (Build cfg s gen dataset nbRows dim).1 = true ↔ 1 ≤ nbRows := by
  rw [Build_fst]
  constructor
  · intro h
    by_contra hc
    have : nbRows < 1 := by omega
    simp [this] at h
  · intro h
    have : ¬nbRows < 1 := by omega
    simp [this]

/-- Claim C8: determinism — the batch-search result after a `Build` depends
only on the seed, the dataset, its row/column counts, the query batch and `k`;
two independent runs (from any two prior matcher states) produce identical
match results. -/
theorem C8_deterministic (cfg : Config) (s₁ s₂ : MatcherState) (gen : ℕ)
    (dataset : List ℚ) (nbRows dim : ℕ) (query : List ℚ) (nbQuery k : ℕ) :
    SearchNeighbours cfg (Build cfg s₁ gen dataset nbRows dim).2 query nbQuery k =
      SearchNeighbours cfg (Build cfg s₂ gen dataset nbRows dim).2 query nbQuery k := by
  by_cases h : nbRows < 1
  · rw [SearchNeighbours_not_built _ _ _ _ _ (by rw [Build_fail _ _ _ _ _ _ h]),
      SearchNeighbours_not_built _ _ _ _ _ (by rw [Build_fail _ _ _ _ _ _ h])]
  · rw [Build_snd _ _ _ _ _ _ (by omega), Build_snd _ _ _ _ _ _ (by omega)]

/-- Claim C6: batch search fails whenever the index is not built: on a fresh
matcher (before any `Build`), and after a failed `Build` — including a failed
rebuild from any prior state (it resets `memMapping`, discarding a previously
successful index), after which every search fails. -/
theorem C6_search_requires_built (cfg : Config) (s : MatcherState) (gen : ℕ)
    (dataset : List ℚ) (nbRows dim : ℕ) (hfail : nbRows < 1) :
    (∀ query nbQuery k, SearchNeighbours cfg initialState query nbQuery k = none) ∧
    (Build cfg s gen dataset nbRows dim).1 = false ∧
    (Build cfg s gen dataset nbRows dim).2.memMapping = none ∧
    (∀ query nbQuery k,
      SearchNeighbours cfg (Build cfg s gen dataset nbRows dim).2 query nbQuery k = none) := by
  rw [Build_fail _ _ _ _ _ _ hfail]
  exact ⟨fun _ _ _ => SearchNeighbours_not_built _ _ _ _ _ rfl, rfl, rfl,
    fun _ _ _ => SearchNeighbours_not_built _ _ _ _ _ rfl⟩

/-- Claim C6 witness: a failed rebuild (zero rows) from a previously built
matcher state leaves every subsequent search failing. -/
theorem C6_witness :
    (∀ query nbQuery k, SearchNeighbours defaultConfig initialState query nbQuery k = none) ∧
    (Build defaultConfig (Build defaultConfig initialState 0 [1, 2, 3, 4] 2 2).2
      0 [1, 2, 3, 4] 0 2).1 = false ∧
    (Build defaultConfig (Build defaultConfig initialState 0 [1, 2, 3, 4] 2 2).2
      0 [1, 2, 3, 4] 0 2).2.memMapping = none ∧
    (∀ query nbQuery k,
      SearchNeighbours defaultConfig
        (Build defaultConfig (Build defaultConfig initialState 0 [1, 2, 3, 4] 2 2).2
          0 [1, 2, 3, 4] 0 2).2 query nbQuery k = none) :=
  C6_search_requires_built defaultConfig (Build defaultConfig initialState 0 [1, 2, 3, 4] 2 2).2
    0 [1, 2, 3, 4] 0 2 (by decide)

/-- Claim C9: after a successful `Build`, the stored zero-mean vector is the
one computed from the dataset at build time; the dataset was hashed with it,
and every subsequent batch search hashes its query batch with that identical
stored vector — the search never recomputes or substitutes a different mean. -/
theorem C9_zero_mean_reused (cfg : Config) (s₀ : MatcherState) (gen : ℕ)
    (dataset : List ℚ) (nbRows dim : ℕ) (hrows : 1 ≤ nbRows) :
    (Build cfg s₀ gen dataset nbRows dim).2.zero_mean_descriptor
        = GetZeroMeanDescriptor (toMat dataset nbRows dim) ∧
    (Build cfg s₀ gen dataset nbRows dim).2.hashed_base
        = CreateHashedDescriptions (CascadeHasher.init cfg gen dim)
            (toMat dataset nbRows dim) (GetZeroMeanDescriptor (toMat dataset nbRows dim)) ∧
    ∀ query nbQuery k, k ≤ nbRows → 1 ≤ nbQuery →
      SearchNeighbours cfg (Build cfg s₀ gen dataset nbRows dim).2 query nbQuery k =
        some (Match_HashedDescriptions cfg
          (CreateHashedDescriptions (CascadeHasher.init cfg gen dim)
            (toMat query nbQuery dim) (GetZeroMeanDescriptor (toMat dataset nbRows dim)))
          (toMat query nbQuery dim)
          (CreateHashedDescriptions (CascadeHasher.init cfg gen dim)
            (toMat dataset nbRows dim) (GetZeroMeanDescriptor (toMat dataset nbRows dim)))
          (toMat dataset nbRows dim) k) := by
  rw [Build_snd _ _ _ _ _ _ hrows]
  refine ⟨rfl, rfl, ?_⟩
  intro query nbQuery k hk hq
  rw [SearchNeighbours_some _ _ _ _ _ _ _ _ (by
    show ¬(nbRows < k ∨ nbQuery < 1)
    omega)]

/-- Claim C9 witness at a concrete build. -/
theorem C9_witness :
    (Build defaultConfig initialState 0 [1, 2, 3, 4] 2 2).2.zero_mean_descriptor
        = GetZeroMeanDescriptor (toMat [1, 2, 3, 4] 2 2) ∧
    (Build defaultConfig initialState 0 [1, 2, 3, 4] 2 2).2.hashed_base
        = CreateHashedDescriptions (CascadeHasher.init defaultConfig 0 2)
            (toMat [1, 2, 3, 4] 2 2) (GetZeroMeanDescriptor (toMat [1, 2, 3, 4] 2 2)) ∧
    ∀ query nbQuery k, k ≤ 2 → 1 ≤ nbQuery →
      SearchNeighbours defaultConfig (Build defaultConfig initialState 0 [1, 2, 3, 4] 2 2).2
          query nbQuery k =
        some (Match_HashedDescriptions defaultConfig
          (CreateHashedDescriptions (CascadeHasher.init defaultConfig 0 2)
            (toMat query nbQuery 2) (GetZeroMeanDescriptor (toMat [1, 2, 3, 4] 2 2)))
          (toMat query nbQuery 2)
          (CreateHashedDescriptions (CascadeHasher.init defaultConfig 0 2)
            (toMat [1, 2, 3, 4] 2 2) (GetZeroMeanDescriptor (toMat [1, 2, 3, 4] 2 2)))
          (toMat [1, 2, 3, 4] 2 2) k) :=
  C9_zero_mean_reused defaultConfig initialState 0 [1, 2, 3, 4] 2 2 (by decide)

/-- Claim C10: on a built index a batch of exactly one query row is accepted
and processed by the batch path (one Match Result is produced; only an empty
batch, `nbQuery < 1`, is rejected), even though the dedicated single-query
entry point `SearchNeighbour` always fails as unsupported. -/
theorem C10_single_row_batch_accepted (cfg : Config) (s₀ : MatcherState) (gen : ℕ)
    (dataset : List ℚ) (nbRows dim : ℕ) (query : List ℚ) (k : ℕ)
    (indice : ℕ) (distance : ℚ)
    (hrows : 1 ≤ nbRows) (hk1 : 1 ≤ k) (hk : k ≤ nbRows) :
    (∃ res, SearchNeighbours cfg (Build cfg s₀ gen dataset nbRows dim).2 query 1 k
        = some res ∧ res.length = 1) ∧
    SearchNeighbours cfg (Build cfg s₀ gen dataset nbRows dim).2 query 0 k = none ∧
    (SearchNeighbour (Build cfg s₀ gen dataset nbRows dim).2 query indice distance).1
      = false := by
  refine ⟨⟨_, SearchNeighbours_built cfg s₀ gen dataset nbRows dim query 1 k hrows hk
      (Nat.le_refl 1), ?_⟩, ?_, rfl⟩
  · rw [List.length_map, toMat_length]
  · rw [Build_snd _ _ _ _ _ _ hrows]
    exact SearchNeighbours_invalid _ _ _ _ _ _ _ _ (Or.inr (by omega))

/-- Claim C10 witness at a concrete build with a one-row query batch. -/
theorem C10_witness :
    (∃ res, SearchNeighbours defaultConfig
        (Build defaultConfig initialState 0 [1, 2, 3, 4] 2 2).2 [0, 1] 1 1
        = some res ∧ res.length = 1) ∧
    SearchNeighbours defaultConfig
        (Build defaultConfig initialState 0 [1, 2, 3, 4] 2 2).2 [0, 1] 0 1 = none ∧
    (SearchNeighbour (Build defaultConfig initialState 0 [1, 2, 3, 4] 2 2).2 [0, 1] 7 5).1
      = false :=
  C10_single_row_batch_accepted defaultConfig initialState 0 [1, 2, 3, 4] 2 2 [0, 1] 1 7 5
    (by decide) (by decide) (by decide)

/-- Claim C2 counterexample: the claim says a batch search with `k < 1` fails
with `InvalidK`, but `SearchNeighbours` only checks `NN > rows` — on a built
index over 2 rows, a call with `k = 0` (< 1) succeeds. -/
theorem C2_counterexample :
    (SearchNeighbours defaultConfig
      (Build defaultConfig initialState 0 [1, 2, 3, 4] 2 2).2 [1, 2] 1 0).isSome = true := rfl

/-- Claim C2 (amended): on a built index over `nbRows` rows, `k > nbRows` is
rejected (the call fails returning no results); `k < 1` (that is `k = 0`) is
NOT rejected — the call succeeds with an empty result list per query; and
`k = nbRows` succeeds, returning for every query all dataset rows ranked by
ascending distance with ties broken by the smaller row index. -/
theorem C2_invalid_k_amended (cfg : Config) (s₀ : MatcherState) (gen : ℕ)
    (dataset : List ℚ) (nbRows dim : ℕ) (query : List ℚ) (nbQuery k : ℕ)
    (hrows : 1 ≤ nbRows) (hq : 1 ≤ nbQuery) :
    (nbRows < k →
      SearchNeighbours cfg (Build cfg s₀ gen dataset nbRows dim).2 query nbQuery k = none) ∧
    (k = 0 → ∃ res, SearchNeighbours cfg (Build cfg s₀ gen dataset nbRows dim).2
        query nbQuery k = some res ∧ res.length = nbQuery ∧ ∀ r ∈ res, r = []) ∧
    (k = nbRows → ∃ res, SearchNeighbours cfg (Build cfg s₀ gen dataset nbRows dim).2
        query nbQuery k = some res ∧ res.length = nbQuery ∧
      ∀ r ∈ res, (r.map Prod.fst).Perm (List.range nbRows) ∧ List.Pairwise distLt r) := by
  refine ⟨?_, ?_, ?_⟩
  · intro hbig
    rw [Build_snd _ _ _ _ _ _ hrows]
    exact SearchNeighbours_invalid _ _ _ _ _ _ _ _ (Or.inl hbig)
  · rintro rfl
    refine ⟨_, SearchNeighbours_built cfg s₀ gen dataset nbRows dim query nbQuery 0 hrows
      (Nat.zero_le _) hq, ?_, ?_⟩
    · rw [List.length_map, toMat_length]
    · intro r hr
      rcases List.mem_map.1 hr with ⟨q, _, rfl⟩
      exact matchOneQuery_zero _ _ _ _ _
  · intro hk
    refine ⟨_, SearchNeighbours_built cfg s₀ gen dataset nbRows dim query nbQuery k hrows
      (le_of_eq hk) hq, ?_, ?_⟩
    · rw [List.length_map, toMat_length]
    · intro r hr
      rcases List.mem_map.1 hr with ⟨q, _, rfl⟩
      have hlen : (CreateHashedDescriptions (CascadeHasher.init cfg gen dim)
          (toMat dataset nbRows dim)
          (GetZeroMeanDescriptor (toMat dataset nbRows dim))).length = nbRows := by
        rw [CreateHashedDescriptions_length, toMat_length]
      constructor
      · have := matchOneQuery_all cfg _ (toMat dataset nbRows dim)
          (hashOne (CascadeHasher.init cfg gen dim)
            (GetZeroMeanDescriptor (toMat dataset nbRows dim)) q) q k
          (by rw [hlen, hk])
        rwa [hlen] at this
      · exact matchOneQuery_sorted _ _ _ _ _ _

/-- Claim C2 witness: on a built 2-row index, `k = 3 > 2` fails, `k = 0` is
accepted with empty per-query results, and `k = 2` returns both dataset rows
ranked. -/
theorem C2_witness :
    ((2 : ℕ) < 3 →
      SearchNeighbours defaultConfig
        (Build defaultConfig initialState 0 [1, 2, 3, 4] 2 2).2 [0, 1] 1 3 = none) ∧
    ((3 : ℕ) = 0 → ∃ res, SearchNeighbours defaultConfig
        (Build defaultConfig initialState 0 [1, 2, 3, 4] 2 2).2 [0, 1] 1 3 = some res ∧
        res.length = 1 ∧ ∀ r ∈ res, r = []) ∧
    ((3 : ℕ) = 2 → ∃ res, SearchNeighbours defaultConfig
        (Build defaultConfig initialState 0 [1, 2, 3, 4] 2 2).2 [0, 1] 1 3 = some res ∧
        res.length = 1 ∧
      ∀ r ∈ res, (r.map Prod.fst).Perm (List.range 2) ∧ List.Pairwise distLt r) :=
  C2_invalid_k_amended defaultConfig initialState 0 [1, 2, 3, 4] 2 2 [0, 1] 1 3
    (by decide) (by decide)

/-- Claim C3 counterexample: the claim says a query batch whose vectors have
length ≠ D is rejected with `DimensionMismatch`, but `SearchNeighbours`
performs no dimension check: on an index of dimension 2, a one-row query
buffer of length 3 (a query vector of length 3 ≠ 2) is accepted — the buffer
is simply reinterpreted at the index's dimension. -/
theorem C3_counterexample :
    ([5, 6, 7] : List ℚ).length = 1 * 3 ∧ (3 : ℕ) ≠ 2 ∧
    (SearchNeighbours defaultConfig
      (Build defaultConfig initialState 0 [1, 2, 3, 4] 2 2).2 [5, 6, 7] 1 1).isSome = true :=
  ⟨by decide, by decide, rfl⟩

/-- Claim C3 (amended): `SearchNeighbours` performs no dimension check at all —
for every built index and every valid `k` and non-empty `nbQuery`, the call
succeeds for ANY query buffer, whatever its length: the buffer is
reinterpreted row-major at the index's column count and searched. -/
theorem C3_no_dimension_check (cfg : Config) (s₀ : MatcherState) (gen : ℕ)
    (dataset : List ℚ) (nbRows dim : ℕ) (query : List ℚ) (nbQuery k : ℕ)
    (hrows : 1 ≤ nbRows) (hq : 1 ≤ nbQuery) (hk : k ≤ nbRows) :
    (SearchNeighbours cfg (Build cfg s₀ gen dataset nbRows dim).2 query nbQuery k).isSome
      = true := by
  rw [SearchNeighbours_built cfg s₀ gen dataset nbRows dim query nbQuery k hrows hk hq]
  rfl

/-- Claim C3 witness: a query buffer of length 5 against an index of
dimension 2 is accepted. -/
theorem C3_witness :
    (SearchNeighbours defaultConfig
      (Build defaultConfig initialState 0 [1, 2, 3, 4] 2 2).2
      [5, 6, 7, 8, 9] 1 2).isSome = true :=
  C3_no_dimension_check defaultConfig initialState 0 [1, 2, 3, 4] 2 2 [5, 6, 7, 8, 9] 1 2
    (by decide) (by decide) (by decide)

/-- Claim C4 counterexample: the claim says every precondition-violating call
fails with an error kind distinct from the index-not-built error.  But (i) an
invalid-k call (`k = 0 < 1`) does not fail at all, and (ii) a `k > N` call
fails with exactly the same value (`false`, no results) as a search on an
unbuilt matcher — the caller cannot tell the two apart. -/
theorem C4_counterexample :
    (SearchNeighbours defaultConfig
      (Build defaultConfig initialState 0 [0, 3, 4, 5] 2 2).2 [0, 1] 1 0).isSome = true ∧
    SearchNeighbours defaultConfig
        (Build defaultConfig initialState 0 [0, 3, 4, 5] 2 2).2 [0, 1] 1 5 =
      SearchNeighbours defaultConfig initialState [0, 1] 1 5 :=
  ⟨rfl, rfl⟩

/-- Claim C4 (amended): the checked precondition violations (`k > nbRows`,
empty query batch) each fail, but with the single failure value `false`
(modelled `none`) — identical to the index-not-built failure, so the caller
cannot tell which precondition was violated; `k < 1` and dimension mismatch
are not checked at all. -/
theorem C4_failures_indistinguishable (cfg : Config) (s₀ : MatcherState) (gen : ℕ)
    (dataset : List ℚ) (nbRows dim : ℕ) (query : List ℚ) (nbQuery k : ℕ)
    (hrows : 1 ≤ nbRows) :
    (nbRows < k →
      SearchNeighbours cfg (Build cfg s₀ gen dataset nbRows dim).2 query nbQuery k = none) ∧
    (nbQuery = 0 →
      SearchNeighbours cfg (Build cfg s₀ gen dataset nbRows dim).2 query nbQuery k = none) ∧
    (∀ s : MatcherState, s.memMapping = none →
      SearchNeighbours cfg s query nbQuery k = none) := by
  refine ⟨?_, ?_, fun s hs => SearchNeighbours_not_built cfg s query nbQuery k hs⟩
  · intro hbig
    rw [Build_snd _ _ _ _ _ _ hrows]
    exact SearchNeighbours_invalid _ _ _ _ _ _ _ _ (Or.inl hbig)
  · rintro rfl
    rw [Build_snd _ _ _ _ _ _ hrows]
    exact SearchNeighbours_invalid _ _ _ _ _ _ _ _ (Or.inr (by omega))

/-- Claim C4 witness at a concrete built index. -/
theorem C4_witness :
    ((2 : ℕ) < 4 →
      SearchNeighbours defaultConfig
        (Build defaultConfig initialState 0 [1, 2, 3, 4] 2 2).2 [0, 1] 2 4 = none) ∧
    ((2 : ℕ) = 0 →
      SearchNeighbours defaultConfig
        (Build defaultConfig initialState 0 [1, 2, 3, 4] 2 2).2 [0, 1] 2 4 = none) ∧
    (∀ s : MatcherState, s.memMapping = none →
      SearchNeighbours defaultConfig s [0, 1] 2 4 = none) :=
  C4_failures_indistinguishable defaultConfig initialState 0 [1, 2, 3, 4] 2 2 [0, 1] 2 4
    (by decide)

/-- Claim C1: for every built index over `nbRows` dataset rows, every
non-empty query batch of matching dimension, and every `k` with
`1 ≤ k ≤ nbRows`, the batch search succeeds and returns exactly `k` results
per query row, sorted strictly ascending by true squared Euclidean distance to
that query row, with ties broken by the smaller dataset row index. -/
theorem C1_search_batch_exact_k_sorted (cfg : Config) (s₀ : MatcherState) (gen : ℕ)
    (dataset : List ℚ) (nbRows dim : ℕ) (query : List ℚ) (nbQuery k : ℕ)
    (hrows : 1 ≤ nbRows) (hdata : dataset.length = nbRows * dim)
    (hq : 1 ≤ nbQuery) (hqlen : query.length = nbQuery * dim)
    (hk1 : 1 ≤ k) (hkN : k ≤ nbRows) :
    ∃ res : List (List (ℕ × ℚ)),
      SearchNeighbours cfg (Build cfg s₀ gen dataset nbRows dim).2 query nbQuery k
        = some res ∧
      res.length = nbQuery ∧
      ∀ qi : ℕ, qi < nbQuery →
        (res.getD qi []).length = k ∧
        List.Pairwise distLt (res.getD qi []) ∧
        ∀ p ∈ res.getD qi [], p.1 < nbRows ∧
          p.2 = sqEuclid ((toMat query nbQuery dim).getD qi [])
            ((toMat dataset nbRows dim).getD p.1 []) := by
  refine ⟨_, SearchNeighbours_built cfg s₀ gen dataset nbRows dim query nbQuery k hrows hkN hq,
    ?_, ?_⟩
  · rw [List.length_map, toMat_length]
  · intro qi hqi
    have hqi' : qi < (toMat query nbQuery dim).length := by
      rw [toMat_length]; exact hqi
    rw [getD_map_lt _ _ qi [] [] hqi']
    have hlen : (CreateHashedDescriptions (CascadeHasher.init cfg gen dim)
        (toMat dataset nbRows dim)
        (GetZeroMeanDescriptor (toMat dataset nbRows dim))).length = nbRows := by
      rw [CreateHashedDescriptions_length, toMat_length]
    refine ⟨?_, matchOneQuery_sorted _ _ _ _ _ _, ?_⟩
    · rw [matchOneQuery_length _ _ _ _ _ _ (by rw [hlen]; exact hkN)]
    · intro p hp
      have := matchOneQuery_mem _ _ _ _ _ _ hp
      rw [hlen] at this
      exact this

/-- Claim C1 witness at a concrete built index and one-row query batch. -/
theorem C1_witness :
    ∃ res : List (List (ℕ × ℚ)),
      SearchNeighbours defaultConfig
        (Build defaultConfig initialState 0 [1, 2, 3, 4] 2 2).2 [0, 1] 1 1
        = some res ∧
      res.length = 1 ∧
      ∀ qi : ℕ, qi < 1 →
        (res.getD qi []).length = 1 ∧
        List.Pairwise distLt (res.getD qi []) ∧
        ∀ p ∈ res.getD qi [], p.1 < 2 ∧
          p.2 = sqEuclid ((toMat [0, 1] 1 2).getD qi [])
            ((toMat [1, 2, 3, 4] 2 2).getD p.1 []) :=
  C1_search_batch_exact_k_sorted defaultConfig initialState 0 [1, 2, 3, 4] 2 2 [0, 1] 1 1
    (by decide) (by decide) (by decide) (by decide) (by decide) (by decide)
